import Mathlib

/-!
Shallow embedding of `src/server.js` (Kingtech school management backend):
the domain model (Student, Teacher, Class), the Express route handlers for
students, teachers and classes, and the announcement e-mail dispatch loop.

Request bodies are JSON objects; each destructured field is an
`Option JVal` (`none` = the key is absent, i.e. `undefined` in JS).
The Mongo collections are modelled as Lean lists of records carrying a
numeric `_id`; `findById` is `List.find?` on the id, `save` of an existing
document replaces the document with the same id, `findByIdAndDelete` is a
filter.  Mongoose casting of raw body values to the schema types on save
(and of query filter values) is modelled by `castStr` / `castNum`.
HTTP responses are the `Resp` type: `badRequest` = 400, `notFound` = 404,
`created` = 201, `ok` = 200 with a JSON body, `noContent` = 204,
`serverError` = 500.
-/

namespace Kingtech

/-- A JavaScript value as it can appear in a parsed JSON request body field. -/
inductive JVal where
  | jstr (s : String)
  | jnum (n : Int)
  | jbool (b : Bool)
  | jnull
  | jobj
  deriving Repr, DecidableEq

/-- JavaScript truthiness of a possibly-absent body field:
`undefined`, `null`, `0`, `""` and `false` are falsy (`!x` in the source). -/
def truthy : Option JVal → Bool
  | none => false
  | some (.jstr s) => s != ""
  | some (.jnum n) => n != 0
  | some (.jbool b) => b
  | some .jnull => false
  | some .jobj => true

/-- The test `typeof x === 'string'` on a possibly-absent body field. -/
def isStr : Option JVal → Bool
  | some (.jstr _) => true
  | _ => false

/-- The test `typeof x === 'number'` on a possibly-absent body field. -/
def isNum : Option JVal → Bool
  | some (.jnum _) => true
  | _ => false

/-- Mongoose cast of a raw body value to a schema `String` field
(on save, and on query-filter values); `none` models a CastError. -/
def castStr : JVal → Option String
  | .jstr s => some s
  | .jnum n => some (toString n)
  | .jbool b => some (toString b)
  | _ => none

/-- Mongoose cast of a raw body value to a schema `Number` field. -/
def castNum : JVal → Option Int
  | .jnum n => some n
  | .jstr s => s.toInt?
  | .jbool b => some (if b then 1 else 0)
  | _ => none

/-- JavaScript template-literal stringification of a value
(used in the conflict error message of the teacher routes). -/
def jsShow : JVal → String
  | .jstr s => s
  | .jnum n => toString n
  | .jbool b => toString b
  | .jnull => "null"
  | .jobj => "[object Object]"

/-- Stringification of a possibly-absent value inside a template literal. -/
def jsShowOpt : Option JVal → String
  | none => "undefined"
  | some v => jsShow v

/-- An HTTP response of a route handler, carrying the JSON success payload. -/
inductive Resp (α : Type) where
  | ok (body : α)
  | created (body : α)
  | noContent
  | badRequest (error : String)
  | notFound (error : String)
  | serverError
  deriving Repr, DecidableEq

/-- One entry of `fees.payments` (paymentSchema: amount Number, date String). -/
structure Payment where
  amount : Int
  date : String
  deriving Repr, DecidableEq

/-- A stored Student document (studentSchema); `sclass` is the schema field
named `class` (destructured as `sclass` in the source), `feesDue` is
`fees.due` and `payments` is `fees.payments`. -/
structure Student where
  id : Nat
  name : String
  age : Int
  sclass : String
  feesDue : Int
  payments : List Payment
  deriving Repr, DecidableEq

/-- A stored Teacher document (teacherSchema). -/
structure Teacher where
  id : Nat
  name : String
  subject : String
  role : String
  classTeacherClass : String
  email : String
  deriving Repr, DecidableEq

/-- A stored Class document (classSchema); `teacher` and `leader`
default to the empty string. -/
structure ClassRec where
  id : Nat
  name : String
  teacher : String
  leader : String
  deriving Repr, DecidableEq

/-- `Student.findById` on the students collection. -/
def Student.findById (students : List Student) (i : Nat) : Option Student :=
  students.find? (fun s => s.id == i)

/-- `Teacher.findById` on the teachers collection. -/
def Teacher.findById (teachers : List Teacher) (i : Nat) : Option Teacher :=
  teachers.find? (fun t => t.id == i)

/-- Request body of `POST /api/students` and `PATCH /api/students/:id`
(the handler destructures `name, age, class: sclass, feesDue`). -/
structure StudentBody where
  name : Option JVal
  age : Option JVal
  sclass : Option JVal
  feesDue : Option JVal
  deriving Repr

/-- Request body of `POST /api/students/:id/payments`. -/
structure PaymentBody where
  amount : Option JVal
  date : Option JVal
  deriving Repr

/-- Request body of `POST /api/teachers` and `PATCH /api/teachers/:id`. -/
structure TeacherBody where
  name : Option JVal
  subject : Option JVal
  role : Option JVal
  classTeacherClass : Option JVal
  email : Option JVal
  deriving Repr

/-- `POST /api/students` (server.js 124-147): reject with 400 if any of
name, age, class, feesDue is falsy; otherwise build the document with
`fees: { due: feesDue, payments: [] }` and save it (mongoose casts the
raw values to the schema types; a cast failure surfaces as a 500). -/
def createStudent (body : StudentBody) (students : List Student) (freshId : Nat) :
    Resp Student × List Student :=
  if !truthy body.name || !truthy body.age || !truthy body.sclass || !truthy body.feesDue then
    (.badRequest "name, age, class, feesDue are required", students)
  else
    match body.name.bind castStr, body.age.bind castNum,
        body.sclass.bind castStr, body.feesDue.bind castNum with
    | some n, some a, some c, some f =>
        let s : Student := ⟨freshId, n, a, c, f, []⟩
        (.created s, students ++ [s])
    | _, _, _, _ => (.serverError, students)

/-- The type-guarded field cascade of `PATCH /api/students/:id`
(server.js 159-162): a field is applied only when present with the
matching primitive type (`typeof name === 'string'`, etc.). -/
def applyStudentPatch (body : StudentBody) (s : Student) : Student :=
  let s1 := match body.name with | some (.jstr v) => { s with name := v } | _ => s
  let s2 := match body.age with | some (.jnum v) => { s1 with age := v } | _ => s1
  let s3 := match body.sclass with | some (.jstr v) => { s2 with sclass := v } | _ => s2
  match body.feesDue with | some (.jnum v) => { s3 with feesDue := v } | _ => s3

/-- `PATCH /api/students/:id` (server.js 150-170): 404 when the id does not
resolve, otherwise apply the type-guarded cascade and save. -/
def updateStudent (body : StudentBody) (i : Nat) (students : List Student) :
    Resp Student × List Student :=
  match Student.findById students i with
  | none => (.notFound "Student not found", students)
  | some s =>
      let s4 := applyStudentPatch body s
      (.ok s4, students.map (fun u => if u.id == i then s4 else u))

/-- `POST /api/students/:id/payments` (server.js 173-191): 400 when amount
or date is falsy, 404 when the student does not exist, otherwise push
`{amount, date}` onto `fees.payments` and save the whole student. -/
def addPayment (body : PaymentBody) (i : Nat) (students : List Student) :
    Resp Student × List Student :=
  if !truthy body.amount || !truthy body.date then
    (.badRequest "amount and date are required", students)
  else
    match Student.findById students i with
    | none => (.notFound "Student not found", students)
    | some s =>
        match body.amount.bind castNum, body.date.bind castStr with
        | some a, some d =>
            let s2 := { s with payments := s.payments ++ [⟨a, d⟩] }
            (.ok s2, students.map (fun u => if u.id == i then s2 else u))
        | _, _ => (.serverError, students)

/-- `DELETE /api/students/:id` (server.js 194-202):
`findByIdAndDelete` then 204, whether or not the id existed. -/
def deleteStudent (i : Nat) (students : List Student) : Resp Unit × List Student :=
  (.noContent, students.filter (fun s => s.id != i))

/-- The conflict error message of the teacher routes (server.js 233, 279):
`Class "<class>" already has a class teacher (<name>).` -/
def conflictMsg (cls : String) (existingName : String) : String :=
  "Class \"" ++ cls ++ "\" already has a class teacher (" ++ existingName ++ ")."

/-- `POST /api/teachers` (server.js 217-252): 400 if any of name, subject,
role, email is falsy; if the submitted role is exactly the string
`Class Teacher` and classTeacherClass is truthy, `findOne` for any stored
teacher with role `Class Teacher` and the same classTeacherClass (the
filter value cast per the schema) and reject with 400 naming it; otherwise
save with `classTeacherClass: role === 'Class Teacher' ?
(classTeacherClass || '') : ''`. -/
def createTeacher (body : TeacherBody) (teachers : List Teacher) (freshId : Nat) :
    Resp Teacher × List Teacher :=
  if !truthy body.name || !truthy body.subject || !truthy body.role || !truthy body.email then
    (.badRequest "name, subject, role, email are required", teachers)
  else
    let conflict :=
      if body.role == some (.jstr "Class Teacher") && truthy body.classTeacherClass then
        teachers.find? (fun u =>
          u.role == "Class Teacher" &&
          some u.classTeacherClass == body.classTeacherClass.bind castStr)
      else none
    match conflict with
    | some e =>
        (.badRequest (conflictMsg (jsShowOpt body.classTeacherClass) e.name), teachers)
    | none =>
        let ctcRaw : JVal :=
          if body.role == some (.jstr "Class Teacher") then
            (if truthy body.classTeacherClass then body.classTeacherClass.getD .jnull
             else .jstr "")
          else .jstr ""
        match body.name.bind castStr, body.subject.bind castStr,
            body.role.bind castStr, body.email.bind castStr, castStr ctcRaw with
        | some n, some sub, some r, some em, some ctc =>
            let t : Teacher := ⟨freshId, n, sub, r, ctc, em⟩
            (.created t, teachers ++ [t])
        | _, _, _, _, _ => (.serverError, teachers)

/-- The type-guarded field cascade of `PATCH /api/teachers/:id`
(server.js 263-266): name, subject, role, email are applied only when
present in the body as strings. -/
def applyTeacherPatch (body : TeacherBody) (t : Teacher) : Teacher :=
  let t1 := match body.name with | some (.jstr v) => { t with name := v } | _ => t
  let t2 := match body.subject with | some (.jstr v) => { t1 with subject := v } | _ => t1
  let t3 := match body.role with | some (.jstr v) => { t2 with role := v } | _ => t2
  match body.email with | some (.jstr v) => { t3 with email := v } | _ => t3

/-- `PATCH /api/teachers/:id` (server.js 255-297): 404 when the id does not
resolve; apply the type-guarded cascade; then the STRICT rule check on the
SUBMITTED role: if it is exactly `Class Teacher` and classTeacherClass is
truthy, `findOne` for a conflicting teacher excluding this `_id` (400 on a
hit, else assign classTeacherClass); in every other case set
classTeacherClass to the empty string; finally save. -/
def updateTeacher (body : TeacherBody) (i : Nat) (teachers : List Teacher) :
    Resp Teacher × List Teacher :=
  match Teacher.findById teachers i with
  | none => (.notFound "Teacher not found", teachers)
  | some t =>
      let t4 := applyTeacherPatch body t
      if body.role == some (.jstr "Class Teacher") then
        if truthy body.classTeacherClass then
          match teachers.find? (fun u =>
              u.role == "Class Teacher" &&
              some u.classTeacherClass == body.classTeacherClass.bind castStr &&
              u.id != i) with
          | some e =>
              (.badRequest (conflictMsg (jsShowOpt body.classTeacherClass) e.name), teachers)
          | none =>
              match body.classTeacherClass.bind castStr with
              | some c =>
                  let t5 := { t4 with classTeacherClass := c }
                  (.ok t5, teachers.map (fun u => if u.id == i then t5 else u))
              | none => (.serverError, teachers)
        else
          let t5 := { t4 with classTeacherClass := "" }
          (.ok t5, teachers.map (fun u => if u.id == i then t5 else u))
      else
        let t5 := { t4 with classTeacherClass := "" }
        (.ok t5, teachers.map (fun u => if u.id == i then t5 else u))

/-- `DELETE /api/teachers/:id` (server.js 301-309):
`findByIdAndDelete` then 204, whether or not the id existed. -/
def deleteTeacher (i : Nat) (teachers : List Teacher) : Resp Unit × List Teacher :=
  (.noContent, teachers.filter (fun t => t.id != i))

/-- The nine seeded class names of `POST /api/classes/init`
(server.js 331-341). -/
def baseClassNames : List String :=
  ["Grade 1", "Grade 2", "Grade 3", "Grade 4", "Grade 5",
   "Grade 6", "Grade 7", "Grade 8", "Grade 9"]

/-- The nine class documents inserted by `insertMany` (teacher and leader
take their schema default, the empty string; ids are store-assigned). -/
def seedClasses (freshId : Nat) : List ClassRec :=
  baseClassNames.enum.map (fun p => ⟨freshId + p.1, p.2, "", ""⟩)

/-- `POST /api/classes/init` (server.js 325-348): if `countDocuments` is
positive, 400 "Classes already initialized" and nothing is inserted;
otherwise `insertMany` the nine base classes and return them with 201. -/
def initClasses (classes : List ClassRec) (freshId : Nat) :
    Resp (List ClassRec) × List ClassRec :=
  if classes.length > 0 then
    (.badRequest "Classes already initialized", classes)
  else
    (.created (seedClasses freshId), classes ++ seedClasses freshId)

/-- The `Teacher.find({ email: { $exists: true, $ne: '' } })` query of the
announcement dispatcher (server.js 81): every stored teacher has the
field, so the filter keeps those with a non-empty email. -/
def eligibleTeachers (teachers : List Teacher) : List Teacher :=
  teachers.filter (fun t => t.email != "")

/-- The sequential send loop of `sendAnnouncementEmailToTeachers`
(server.js 88-98), run inside the function's single try/catch.
`sendOk e` models whether the awaited `sgMail.send` to recipient `e`
resolves; a rejection propagates out of the `for` loop to the catch block
(which logs and returns), so the loop ends at the first failure.  The
result is the trace of attempted sends: recipient and outcome. -/
def attemptSends (sendOk : String → Bool) : List Teacher → List (String × Bool)
  | [] => []
  | t :: ts =>
      if sendOk t.email then (t.email, true) :: attemptSends sendOk ts
      else [(t.email, false)]

/-- `sendAnnouncementEmailToTeachers` (server.js 78-102): query the
teachers with a non-empty email, then send one individual message per
teacher in order until the first failure. -/
def sendAnnouncementEmailToTeachers (teachers : List Teacher) (sendOk : String → Bool) :
    List (String × Bool) :=
  attemptSends sendOk (eligibleTeachers teachers)

/-! Theorems. -/

/-- Claim C10: every delete-by-id on students or teachers returns 204,
including an id resolving to no record, and in the absent case the store
is unchanged — delete is idempotent. -/
theorem delete_is_idempotent_success
    (students : List Student) (teachers : List Teacher) (i j : Nat) :
    (deleteStudent i students).1 = Resp.noContent ∧
    (deleteTeacher j teachers).1 = Resp.noContent ∧
    ((∀ s ∈ students, s.id ≠ i) → (deleteStudent i students).2 = students) ∧
    ((∀ t ∈ teachers, t.id ≠ j) → (deleteTeacher j teachers).2 = teachers) := by
  refine ⟨rfl, rfl, ?_, ?_⟩
  · intro h
    exact List.filter_eq_self.mpr (fun s hs => by simpa [bne_iff_ne] using h s hs)
  · intro h
    exact List.filter_eq_self.mpr (fun t ht => by simpa [bne_iff_ne] using h t ht)

/-- Witness for C10: deleting the absent id 99 from a one-student store
returns 204 and leaves the store unchanged. -/
theorem delete_is_idempotent_success_witness :
    (deleteStudent 99 [⟨1, "Kofi", 10, "Grade 1", 50, []⟩]).1 = Resp.noContent ∧
    (deleteStudent 99 [⟨1, "Kofi", 10, "Grade 1", 50, []⟩]).2 =
      [⟨1, "Kofi", 10, "Grade 1", 50, []⟩] := by
  have h := delete_is_idempotent_success
    [⟨1, "Kofi", 10, "Grade 1", 50, []⟩] [] 99 0
  exact ⟨h.1, h.2.2.1 (by decide)⟩

/-- Claim C8: the class bulk-initializer fails with 400
"Classes already initialized" and inserts nothing when any class exists;
on an empty collection it inserts and returns with 201 exactly nine
classes named "Grade 1" through "Grade 9". -/
theorem class_init_guard_and_seed (classes : List ClassRec) (fid : Nat) :
    (classes ≠ [] →
      initClasses classes fid = (.badRequest "Classes already initialized", classes)) ∧
    (initClasses [] fid = (.created (seedClasses fid), seedClasses fid) ∧
     (seedClasses fid).map ClassRec.name = baseClassNames ∧
     baseClassNames = ["Grade 1", "Grade 2", "Grade 3", "Grade 4", "Grade 5",
       "Grade 6", "Grade 7", "Grade 8", "Grade 9"] ∧
     (seedClasses fid).length = 9) := by
  constructor
  · intro h
    unfold initClasses
    rw [if_pos (List.length_pos.mpr h)]
  · refine ⟨by simp [initClasses], ?_, rfl, rfl⟩
    rfl

/-- Witness for C8: a store holding one class makes the initializer
reject and insert nothing. -/
theorem class_init_guard_and_seed_witness :
    initClasses [⟨0, "Grade 1", "", ""⟩] 7 =
      (.badRequest "Classes already initialized", [⟨0, "Grade 1", "", ""⟩]) ∧
    initClasses [] 7 = (.created (seedClasses 7), seedClasses 7) := by
  have h := class_init_guard_and_seed [⟨0, "Grade 1", "", ""⟩] 7
  exact ⟨h.1 (by decide), h.2.1⟩

/-- Claim C7: a required numeric field that is present but zero (age or
feesDue on student creation, amount on payment append) fails the
truthiness test, so the request is rejected with the 400 message naming
the required fields, and the store is unchanged. -/
theorem zero_numeric_field_rejected :
    (∀ (body : StudentBody) (students : List Student) (fid : Nat),
        body.age = some (.jnum 0) →
        createStudent body students fid =
          (.badRequest "name, age, class, feesDue are required", students)) ∧
    (∀ (body : StudentBody) (students : List Student) (fid : Nat),
        body.feesDue = some (.jnum 0) →
        createStudent body students fid =
          (.badRequest "name, age, class, feesDue are required", students)) ∧
    (∀ (body : PaymentBody) (i : Nat) (students : List Student),
        body.amount = some (.jnum 0) →
        addPayment body i students =
          (.badRequest "amount and date are required", students)) := by
  refine ⟨?_, ?_, ?_⟩ <;> intro body x y h <;>
    simp [createStudent, addPayment, truthy, h]

/-- Witness for C7: a student-creation request with age 0 (all other
fields valid) is rejected with the 400 message, storing nothing. -/
theorem zero_numeric_field_rejected_witness :
    createStudent ⟨some (.jstr "Ama"), some (.jnum 0), some (.jstr "Grade 1"),
        some (.jnum 100)⟩ [] 0 =
      (.badRequest "name, age, class, feesDue are required", []) :=
  zero_numeric_field_rejected.1
    ⟨some (.jstr "Ama"), some (.jnum 0), some (.jstr "Grade 1"), some (.jnum 100)⟩
    [] 0 rfl

/-- Counterexample to claim C2: with two stored teachers both having a
non-empty email, a transport that fails on the first recipient ends the
dispatch with a single attempted send — the second teacher is never
attempted, so a single failure does abort the remaining sends. -/
theorem announcement_send_abort_cex :
    sendAnnouncementEmailToTeachers
        [⟨0, "Alice", "Math", "Teacher", "", "alice@school.test"⟩,
         ⟨1, "Bob", "Science", "Teacher", "", "bob@school.test"⟩]
        (fun e => e != "alice@school.test") =
      [("alice@school.test", false)] ∧
    "bob@school.test" ∉
      (sendAnnouncementEmailToTeachers
        [⟨0, "Alice", "Math", "Teacher", "", "alice@school.test"⟩,
         ⟨1, "Bob", "Science", "Teacher", "", "bob@school.test"⟩]
        (fun e => e != "alice@school.test")).map Prod.fst := by
  exact ⟨by decide, by decide⟩

theorem attemptSends_eq (sendOk : String → Bool) (l : List Teacher) :
    attemptSends sendOk l =
      ((l.map Teacher.email).takeWhile sendOk).map (fun e => (e, true)) ++
      (match (l.map Teacher.email).dropWhile sendOk with
       | [] => []
       | e :: _ => [(e, false)]) := by
  induction l with
  | nil => rfl
  | cons t ts ih =>
      by_cases h : sendOk t.email
      · simp [attemptSends, h, ih]
      · simp [attemptSends, h]

/-- Claim C2, amended: the dispatcher attempts one individual send per
stored teacher with a non-empty email, in order, but only up to and
including the first failing send — the loop runs inside a single
try/catch, so one failure is logged and aborts the remaining sends
(teachers after the first failure are never attempted). -/
theorem announcement_send_stops_at_first_failure
    (teachers : List Teacher) (sendOk : String → Bool) :
    sendAnnouncementEmailToTeachers teachers sendOk =
      (((eligibleTeachers teachers).map Teacher.email).takeWhile sendOk).map
          (fun e => (e, true)) ++
      (match ((eligibleTeachers teachers).map Teacher.email).dropWhile sendOk with
       | [] => []
       | e :: _ => [(e, false)]) :=
  attemptSends_eq sendOk (eligibleTeachers teachers)

/-- Claim C9: appending a payment with non-falsy amount and date to an
existing student appends exactly `{amount, date}` at the end of the
payments sequence (length grows by one) and changes no other field of the
student — in particular `fees.due` is untouched. -/
theorem payment_append_frame (students : List Student) (i : Nat) (s : Student)
    (a : Int) (d : String) (body : PaymentBody)
    (hfind : Student.findById students i = some s)
    (hamt : body.amount = some (.jnum a)) (ha : a ≠ 0)
    (hdate : body.date = some (.jstr d)) (hd : d ≠ "") :
    addPayment body i students =
      (.ok { s with payments := s.payments ++ [⟨a, d⟩] },
       students.map fun u =>
         if u.id == i then { s with payments := s.payments ++ [⟨a, d⟩] } else u) ∧
    ({ s with payments := s.payments ++ [⟨a, d⟩] } : Student).feesDue = s.feesDue ∧
    ({ s with payments := s.payments ++ [⟨a, d⟩] } : Student).payments.length =
      s.payments.length + 1 := by
  refine ⟨?_, rfl, by simp⟩
  simp [addPayment, hamt, hdate, truthy, ha, hd, hfind, castNum, castStr]

/-- Witness for C9: appending `{amount: 100, date: "2024-01-01"}` to a
student with zero payments yields exactly that one entry and leaves
`fees.due` at 250. -/
theorem payment_append_frame_witness :
    addPayment ⟨some (.jnum 100), some (.jstr "2024-01-01")⟩ 4
        [⟨4, "Esi", 9, "Grade 3", 250, []⟩] =
      (.ok ⟨4, "Esi", 9, "Grade 3", 250, [⟨100, "2024-01-01"⟩]⟩,
       [⟨4, "Esi", 9, "Grade 3", 250, [⟨100, "2024-01-01"⟩]⟩]) := by
  have h := payment_append_frame [⟨4, "Esi", 9, "Grade 3", 250, []⟩] 4
    ⟨4, "Esi", 9, "Grade 3", 250, []⟩ 100 "2024-01-01"
    ⟨some (.jnum 100), some (.jstr "2024-01-01")⟩
    rfl rfl (by decide) rfl (by decide)
  exact h.1.trans (by decide)

/-- Counterexample to claim C3: a teacher PATCH whose body is empty
(every field absent) still rewrites the stored `classTeacherClass` from
"Grade 1" to the empty string, because the clearing rule tests the
submitted role — so a field absent from the request does not keep its
previous stored value. -/
theorem patch_frame_cex :
    updateTeacher ⟨none, none, none, none, none⟩ 0
        [⟨0, "Ama", "Math", "Class Teacher", "Grade 1", "ama@school.test"⟩] =
      (.ok ⟨0, "Ama", "Math", "Class Teacher", "", "ama@school.test"⟩,
       [⟨0, "Ama", "Math", "Class Teacher", "", "ama@school.test"⟩]) ∧
    ("" : String) ≠ "Grade 1" := by
  exact ⟨by decide, by decide⟩

theorem applyStudentPatch_eq (body : StudentBody) (s : Student) :
    applyStudentPatch body s =
      { s with
        name := match body.name with | some (.jstr v) => v | _ => s.name,
        age := match body.age with | some (.jnum v) => v | _ => s.age,
        sclass := match body.sclass with | some (.jstr v) => v | _ => s.sclass,
        feesDue := match body.feesDue with | some (.jnum v) => v | _ => s.feesDue } := by
  unfold applyStudentPatch
  (repeat' split) <;> simp_all

theorem applyTeacherPatch_eq (body : TeacherBody) (t : Teacher) :
    applyTeacherPatch body t =
      { t with
        name := match body.name with | some (.jstr v) => v | _ => t.name,
        subject := match body.subject with | some (.jstr v) => v | _ => t.subject,
        role := match body.role with | some (.jstr v) => v | _ => t.role,
        email := match body.email with | some (.jstr v) => v | _ => t.email } := by
  unfold applyTeacherPatch
  (repeat' split) <;> simp_all

/-- Claim C3, amended: the type-guarded partial-update pattern holds for
every field of a student PATCH (name, age, class, feesDue; payments and
id are never touched) and for the guarded fields of a teacher PATCH
(name, subject, role, email) whenever the PATCH succeeds — but not for
the teacher's `classTeacherClass`, which is recomputed on every teacher
PATCH by the class-teacher rule from the submitted role (see C4/C5). -/
theorem patch_type_guarded_fields :
    (∀ (body : StudentBody) (i : Nat) (students : List Student) (s : Student),
        Student.findById students i = some s →
        updateStudent body i students =
          (.ok (applyStudentPatch body s),
           students.map fun u => if u.id == i then applyStudentPatch body s else u) ∧
        (applyStudentPatch body s).id = s.id ∧
        (applyStudentPatch body s).name =
          (match body.name with | some (.jstr v) => v | _ => s.name) ∧
        (applyStudentPatch body s).age =
          (match body.age with | some (.jnum v) => v | _ => s.age) ∧
        (applyStudentPatch body s).sclass =
          (match body.sclass with | some (.jstr v) => v | _ => s.sclass) ∧
        (applyStudentPatch body s).feesDue =
          (match body.feesDue with | some (.jnum v) => v | _ => s.feesDue) ∧
        (applyStudentPatch body s).payments = s.payments) ∧
    (∀ (body : TeacherBody) (i : Nat) (teachers : List Teacher) (t t2 : Teacher)
        (ts2 : List Teacher),
        Teacher.findById teachers i = some t →
        updateTeacher body i teachers = (.ok t2, ts2) →
        t2.id = t.id ∧
        t2.name = (match body.name with | some (.jstr v) => v | _ => t.name) ∧
        t2.subject = (match body.subject with | some (.jstr v) => v | _ => t.subject) ∧
        t2.role = (match body.role with | some (.jstr v) => v | _ => t.role) ∧
        t2.email = (match body.email with | some (.jstr v) => v | _ => t.email)) := by
  constructor
  · intro body i students s hfind
    refine ⟨?_, ?_, ?_, ?_, ?_, ?_, ?_⟩ <;>
      simp [updateStudent, hfind, applyStudentPatch_eq]
  · intro body i teachers t t2 ts2 hfind heq
    unfold updateTeacher at heq
    simp only [hfind] at heq
    (repeat' split at heq) <;>
      simp only [Prod.mk.injEq, Resp.ok.injEq] at heq <;>
      first
        | (obtain ⟨rfl, rfl⟩ := heq
           simp [applyTeacherPatch_eq])
        | simp_all

/-- Witness for C3 (amended): patching a student with a string name, a
null age, an absent class and a boolean feesDue applies only the name and
keeps age, class, feesDue and the payments unchanged. -/
theorem patch_type_guarded_fields_witness :
    updateStudent ⟨some (.jstr "Kojo"), some .jnull, none, some (.jbool true)⟩ 3
        [⟨3, "Ama", 10, "Grade 2", 50, [⟨20, "2024-01-01"⟩]⟩] =
      (.ok ⟨3, "Kojo", 10, "Grade 2", 50, [⟨20, "2024-01-01"⟩]⟩,
       [⟨3, "Kojo", 10, "Grade 2", 50, [⟨20, "2024-01-01"⟩]⟩]) := by
  have h := (patch_type_guarded_fields.1
    ⟨some (.jstr "Kojo"), some .jnull, none, some (.jbool true)⟩ 3
    [⟨3, "Ama", 10, "Grade 2", 50, [⟨20, "2024-01-01"⟩]⟩]
    ⟨3, "Ama", 10, "Grade 2", 50, [⟨20, "2024-01-01"⟩]⟩ rfl).1
  exact h.trans (by decide)

/-- Claim C4: a teacher PATCH whose body carries no string role (the role
key is absent or non-string) always clears the stored classTeacherClass
to the empty string, even when the stored role is "Class Teacher" — the
clearing decision tests the submitted role, not the stored one. -/
theorem teacher_patch_without_role_clears_class (body : TeacherBody) (i : Nat)
    (teachers : List Teacher) (t : Teacher)
    (hfind : Teacher.findById teachers i = some t)
    (hrole : isStr body.role = false) :
    updateTeacher body i teachers =
      (.ok { applyTeacherPatch body t with classTeacherClass := "" },
       teachers.map fun u =>
         if u.id == i then { applyTeacherPatch body t with classTeacherClass := "" }
         else u) := by
  have hne : (body.role == some (JVal.jstr "Class Teacher")) = false := by
    cases hb : body.role with
    | none => rfl
    | some v => cases v <;> first | rfl | simp [isStr, hb] at hrole
  unfold updateTeacher
  simp only [hfind, hne, Bool.false_eq_true, if_false]

/-- Witness for C4: an empty-role PATCH renaming a stored class teacher of
"Grade 1" clears the classTeacherClass while keeping the stored role. -/
theorem teacher_patch_without_role_clears_class_witness :
    updateTeacher ⟨some (.jstr "Akosua"), none, none, none, none⟩ 2
        [⟨2, "Ama", "Math", "Class Teacher", "Grade 1", "ama@school.test"⟩] =
      (.ok ⟨2, "Akosua", "Math", "Class Teacher", "", "ama@school.test"⟩,
       [⟨2, "Akosua", "Math", "Class Teacher", "", "ama@school.test"⟩]) := by
  have h := teacher_patch_without_role_clears_class
    ⟨some (.jstr "Akosua"), none, none, none, none⟩ 2
    [⟨2, "Ama", "Math", "Class Teacher", "Grade 1", "ama@school.test"⟩]
    ⟨2, "Ama", "Math", "Class Teacher", "Grade 1", "ama@school.test"⟩ rfl rfl
  exact h.trans (by decide)

/-- Claim C5: whenever a teacher create or update stores a record and the
submitted role is any value other than the string "Class Teacher", the
stored classTeacherClass is the empty string, regardless of any
classTeacherClass value supplied in the same request. -/
theorem non_class_teacher_role_clears_class :
    (∀ (body : TeacherBody) (teachers : List Teacher) (fid : Nat)
        (t2 : Teacher) (ts2 : List Teacher),
        body.role ≠ some (.jstr "Class Teacher") →
        createTeacher body teachers fid = (.created t2, ts2) →
        t2.classTeacherClass = "") ∧
    (∀ (body : TeacherBody) (i : Nat) (teachers : List Teacher)
        (t2 : Teacher) (ts2 : List Teacher),
        body.role ≠ some (.jstr "Class Teacher") →
        updateTeacher body i teachers = (.ok t2, ts2) →
        t2.classTeacherClass = "") := by
  constructor
  · intro body teachers fid t2 ts2 hrole heq
    have hne : (body.role == some (JVal.jstr "Class Teacher")) = false :=
      beq_eq_false_iff_ne.mpr hrole
    unfold createTeacher at heq
    rw [hne] at heq
    simp only [castStr] at heq
    (repeat' split at heq) <;>
      simp only [Prod.mk.injEq, Resp.created.injEq] at heq <;>
      first
        | (obtain ⟨rfl, rfl⟩ := heq; simp_all)
        | simp_all
  · intro body i teachers t2 ts2 hrole heq
    have hne : (body.role == some (JVal.jstr "Class Teacher")) = false :=
      beq_eq_false_iff_ne.mpr hrole
    unfold updateTeacher at heq
    rw [hne] at heq
    (repeat' split at heq) <;>
      simp only [Prod.mk.injEq, Resp.ok.injEq] at heq <;>
      first
        | (obtain ⟨rfl, rfl⟩ := heq; simp_all)
        | simp_all

/-- Witness for C5: creating a teacher with role "Teacher" and a supplied
classTeacherClass "Grade 1" stores an empty classTeacherClass, and so
does updating a stored class teacher of "Grade 1" to role "Teacher". -/
theorem non_class_teacher_role_clears_class_witness :
    (Teacher.mk 5 "Yaw" "Science" "Teacher" "" "yaw@school.test").classTeacherClass
      = "" ∧
    (Teacher.mk 8 "Ama" "Math" "Teacher" "" "ama@school.test").classTeacherClass
      = "" := by
  constructor
  · exact non_class_teacher_role_clears_class.1
      ⟨some (.jstr "Yaw"), some (.jstr "Science"), some (.jstr "Teacher"),
        some (.jstr "Grade 1"), some (.jstr "yaw@school.test")⟩ [] 5
      (Teacher.mk 5 "Yaw" "Science" "Teacher" "" "yaw@school.test")
      [Teacher.mk 5 "Yaw" "Science" "Teacher" "" "yaw@school.test"]
      (by decide) (by decide)
  · exact non_class_teacher_role_clears_class.2
      ⟨none, none, some (.jstr "Teacher"), some (.jstr "Grade 1"), none⟩ 8
      [⟨8, "Ama", "Math", "Class Teacher", "Grade 1", "ama@school.test"⟩]
      (Teacher.mk 8 "Ama" "Math" "Teacher" "" "ama@school.test")
      [Teacher.mk 8 "Ama" "Math" "Teacher" "" "ama@school.test"]
      (by decide) (by decide)

/-- Claim C1: on teacher creation with submitted role exactly
"Class Teacher" and a non-empty classTeacherClass (and the other required
fields valid), if some stored teacher already has role "Class Teacher"
and the same classTeacherClass, the create is rejected with a 400
conflict whose message names that teacher and the store is unchanged;
if no such teacher exists, the create succeeds and stores the teacher. -/
theorem teacher_create_exclusivity (n sub em c : String) (teachers : List Teacher)
    (fid : Nat) (hn : n ≠ "") (hs : sub ≠ "") (he : em ≠ "") (hc : c ≠ "") :
    (∀ e, teachers.find? (fun u => u.role == "Class Teacher" && u.classTeacherClass == c)
        = some e →
      createTeacher ⟨some (.jstr n), some (.jstr sub), some (.jstr "Class Teacher"),
          some (.jstr c), some (.jstr em)⟩ teachers fid =
        (.badRequest (conflictMsg c e.name), teachers)) ∧
    (teachers.find? (fun u => u.role == "Class Teacher" && u.classTeacherClass == c)
        = none →
      createTeacher ⟨some (.jstr n), some (.jstr sub), some (.jstr "Class Teacher"),
          some (.jstr c), some (.jstr em)⟩ teachers fid =
        (.created ⟨fid, n, sub, "Class Teacher", c, em⟩,
         teachers ++ [⟨fid, n, sub, "Class Teacher", c, em⟩])) := by
  have hcond : (!truthy (some (JVal.jstr n)) || !truthy (some (JVal.jstr sub)) ||
      !truthy (some (JVal.jstr "Class Teacher")) || !truthy (some (JVal.jstr em)))
      = false := by
    simp [truthy, hn, hs, he]
  have hpred : (fun u : Teacher => u.role == "Class Teacher" &&
      some u.classTeacherClass == (some (JVal.jstr c)).bind castStr) =
      (fun u : Teacher => u.role == "Class Teacher" && u.classTeacherClass == c) := by
    funext u
    simp [castStr]
  have hct : truthy (some (JVal.jstr c)) = true := by simp [truthy, hc]
  constructor
  · intro e hfind
    unfold createTeacher
    rw [hcond]
    simp only [Bool.false_eq_true, if_false, beq_self_eq_true, hct, Bool.true_and,
      Bool.and_true, if_true, hpred, hfind]
    rfl
  · intro hfind
    unfold createTeacher
    rw [hcond]
    simp only [Bool.false_eq_true, if_false, beq_self_eq_true, hct, Bool.true_and,
      Bool.and_true, if_true, hpred, hfind]
    simp only [Option.some_bind, Option.getD_some, castStr]

/-- Witness for C1: with teacher Ama stored as class teacher of
"Grade 1", creating Bea for "Grade 1" is rejected with the conflict
message naming Ama and stores nothing; on an empty store the same
request succeeds. -/
theorem teacher_create_exclusivity_witness :
    createTeacher ⟨some (.jstr "Bea"), some (.jstr "English"),
        some (.jstr "Class Teacher"), some (.jstr "Grade 1"),
        some (.jstr "bea@school.test")⟩
        [⟨0, "Ama", "Math", "Class Teacher", "Grade 1", "ama@school.test"⟩] 1 =
      (.badRequest "Class \"Grade 1\" already has a class teacher (Ama).",
       [⟨0, "Ama", "Math", "Class Teacher", "Grade 1", "ama@school.test"⟩]) ∧
    createTeacher ⟨some (.jstr "Bea"), some (.jstr "English"),
        some (.jstr "Class Teacher"), some (.jstr "Grade 1"),
        some (.jstr "bea@school.test")⟩ [] 1 =
      (.created ⟨1, "Bea", "English", "Class Teacher", "Grade 1", "bea@school.test"⟩,
       [⟨1, "Bea", "English", "Class Teacher", "Grade 1", "bea@school.test"⟩]) := by
  have h := teacher_create_exclusivity "Bea" "English" "bea@school.test" "Grade 1"
    [⟨0, "Ama", "Math", "Class Teacher", "Grade 1", "ama@school.test"⟩] 1
    (by decide) (by decide) (by decide) (by decide)
  have h2 := teacher_create_exclusivity "Bea" "English" "bea@school.test" "Grade 1"
    [] 1 (by decide) (by decide) (by decide) (by decide)
  exact ⟨(h.1 ⟨0, "Ama", "Math", "Class Teacher", "Grade 1", "ama@school.test"⟩
      (by decide)).trans (by decide),
    h2.2 (by decide)⟩

/-- Claim C6: on a teacher update with submitted role "Class Teacher" and
a non-empty classTeacherClass, the conflict query excludes the teacher
being updated, so when every stored holder of that class is the teacher
itself the update succeeds (in particular, re-assigning a teacher to the
class they already hold never conflicts with themselves). -/
theorem teacher_update_self_reassign (teachers : List Teacher) (i : Nat)
    (t : Teacher) (c : String) (body : TeacherBody)
    (hfind : Teacher.findById teachers i = some t)
    (hc : c ≠ "")
    (honly : ∀ u ∈ teachers, u.role = "Class Teacher" → u.classTeacherClass = c →
      u.id = i)
    (hrole : body.role = some (.jstr "Class Teacher"))
    (hctc : body.classTeacherClass = some (.jstr c)) :
    updateTeacher body i teachers =
      (.ok { applyTeacherPatch body t with classTeacherClass := c },
       teachers.map fun u =>
         if u.id == i then { applyTeacherPatch body t with classTeacherClass := c }
         else u) := by
  have hnone : teachers.find? (fun u => u.role == "Class Teacher" &&
      some u.classTeacherClass == some c && u.id != i) = none := by
    rw [List.find?_eq_none]
    intro u hu
    simp only [Bool.and_eq_true, Option.some_beq_some, beq_iff_eq, bne_iff_ne, ne_eq]
    rintro ⟨⟨h1, h2⟩, h3⟩
    exact h3 (honly u hu h1 h2)
  have hct : truthy (some (JVal.jstr c)) = true := by simp [truthy, hc]
  unfold updateTeacher
  simp only [hfind, hrole, hctc, beq_self_eq_true, if_true, hct, castStr,
    Option.some_bind]
  rw [hnone]

/-- Witness for C6: the stored class teacher of "Grade 1" is re-assigned
to "Grade 1" in an update repeating role and class, and the update
succeeds instead of conflicting with the teacher themselves. -/
theorem teacher_update_self_reassign_witness :
    updateTeacher ⟨none, none, some (.jstr "Class Teacher"), some (.jstr "Grade 1"),
        none⟩ 3
        [⟨3, "Ama", "Math", "Class Teacher", "Grade 1", "ama@school.test"⟩] =
      (.ok ⟨3, "Ama", "Math", "Class Teacher", "Grade 1", "ama@school.test"⟩,
       [⟨3, "Ama", "Math", "Class Teacher", "Grade 1", "ama@school.test"⟩]) := by
  have h := teacher_update_self_reassign
    [⟨3, "Ama", "Math", "Class Teacher", "Grade 1", "ama@school.test"⟩] 3
    ⟨3, "Ama", "Math", "Class Teacher", "Grade 1", "ama@school.test"⟩ "Grade 1"
    ⟨none, none, some (.jstr "Class Teacher"), some (.jstr "Grade 1"), none⟩
    rfl (by decide) (by decide) rfl rfl
  exact h.trans (by decide)

end Kingtech
